import Mathlib

/-!
Shallow embedding of the request/session orchestration layer of the
`afsapi` Frontier Silicon client (`src/afsapi/__init__.py`).

The client object's mutable attributes become an explicit record
(`ClientState`); the HTTP transport and the XML parser are external
collaborators, modelled as an oracle (`Env`) answering each HTTP GET
(indexed by the number of requests issued so far) and each parse of a
response body.  Python exceptions are modelled with `Except Err`; a
raised exception leaves the mutations performed so far in place, so
every operation returns the post-state together with its
`Except`-result.  Every HTTP request issued is appended to a trace so
that theorems can count and inspect requests.
-/

set_option autoImplicit false

/-- Exception kinds.  `attrError` models `AttributeError` from accessing a
missing element of an `objectify` document, `keyError` a missing dict key,
`indexError` `list.pop()` on an empty list, `valueError` a failing `int(...)`
conversion; `other` stands for any exception raised by a collaborator
(network error, timeout, XML syntax error, ...). -/
inductive Err where
  | attrError
  | keyError
  | indexError
  | valueError
  | other (n : Nat)
deriving DecidableEq, Repr

/-- A raw decoded value stored in a labeled-list item or passed as a request
parameter: a Python `int` or a (text content of an) XML node / string. -/
inductive Value where
  | vint (n : Int)
  | vtext (s : String)
deriving DecidableEq, Repr

/-- Python truthiness of a `Value` (`0` and the empty string are falsy). -/
def pyTruthy : Value → Bool
  | .vint n => n ≠ 0
  | .vtext s => s ≠ ""

/-- Python `str(...)` of a `Value`. -/
def pyStr : Value → String
  | .vint n => toString n
  | .vtext s => s

/-- Python `==` between a stored value and an `Optional[int]`
(`x == None` is `False` for ints and strings; `str == int` is `False`). -/
def pyEqVOI : Value → Option Int → Bool
  | .vint n, some m => n = m
  | _, _ => false

/-- Python `==` between a stored value and a `str`. -/
def pyEqVStr : Value → String → Bool
  | .vtext t, v => t = v
  | .vint _, _ => false

/-- Python truthiness of an `Optional[str]` (`None` and `""` are falsy),
as used by `if not self.__webfsapi` and `if ... not self.sid`. -/
def pyFalsyS : Option String → Bool
  | none => true
  | some s => s = ""

/-- Python truthiness of an `Optional[list]` (`None` and `[]` are falsy),
as used by `if not self.__modes`. -/
def pyFalsyL : Option (List (List (Option String × Value))) → Bool
  | none => true
  | some l => l.isEmpty

/-- Python truthiness of an `Optional[int]` (`None` and `0` are falsy),
as used by `if not self.__volume_steps`. -/
def pyFalsyI : Option Int → Bool
  | none => true
  | some n => n = 0

/-- Python `'%s' % x` of an `Optional[str]` (`None` prints as "None"). -/
def pyStrOpt : Option String → String
  | none => "None"
  | some s => s

/-- Value of a decimal digit character. -/
def digitVal (c : Char) : Option Nat :=
  if c = '0' then some 0 else if c = '1' then some 1 else if c = '2' then some 2
  else if c = '3' then some 3 else if c = '4' then some 4 else if c = '5' then some 5
  else if c = '6' then some 6 else if c = '7' then some 7 else if c = '8' then some 8
  else if c = '9' then some 9 else none

/-- Parse a non-empty run of decimal digits (`none` on empty or non-digit). -/
def parseDigits : List Char → Option Nat → Option Nat
  | [], acc => acc
  | c :: rest, acc =>
    match digitVal c, acc with
    | some d, some n => parseDigits rest (some (n * 10 + d))
    | some d, none => parseDigits rest (some d)
    | none, _ => none

/-- The sign-and-digits core of Python `int(text)`. -/
def pyIntCore (t : String) : Option Int :=
  match t.data with
  | '-' :: rest => (parseDigits rest none).map (fun n => -(n : Int))
  | l => (parseDigits l none).map (fun n => (n : Int))

/-- Python `int(text)`: an unparsable text raises `ValueError`. -/
def pyInt (t : String) : Except Err Int :=
  match pyIntCore t with
  | some n => .ok n
  | none => .error .valueError

/-- Python dict lookup `d[k]` (first matching key; inserts keep keys unique). -/
def dGet {κ : Type} [DecidableEq κ] : List (κ × Value) → κ → Option Value
  | [], _ => none
  | (k0, v0) :: rest, k => if k0 = k then some v0 else dGet rest k

/-- Python dict assignment `d[k] = v`: replace in place, else append. -/
def dInsert {κ : Type} [DecidableEq κ] : List (κ × Value) → κ → Value → List (κ × Value)
  | [], k, v => [(k, v)]
  | (k0, v0) :: rest, k, v =>
    if k0 = k then (k0, v) :: rest else (k0, v0) :: dInsert rest k v

/-- Python `d.update(e)`: assign every binding of `e` into `d`, in order. -/
def dUpdate {κ : Type} [DecidableEq κ] (d e : List (κ × Value)) : List (κ × Value) :=
  e.foldl (fun acc kv => dInsert acc kv.1 kv.2) d

/-- A labeled-list item: `handle_list` builds a Python dict whose keys are the
`name` attributes of the fields (the attribute may be missing, hence the key
is an `Option String`; the synthetic position key is `some "band"`). -/
abbrev Item := List (Option String × Value)

/-- A request parameter map (Python dict with string keys). -/
abbrev Params := List (String × Value)

/-- One decoded `field` element of a LIST_GET_NEXT `item`: its `name`
attribute (`field.get('name')`, possibly absent) and the text contents of
its child nodes (`list(field.iterchildren())`). -/
structure XField where
  name : Option String
  children : List String
deriving DecidableEq, Repr

/-- One `item` element of a LIST_GET_NEXT document. -/
structure XItem where
  fields : List XField
deriving DecidableEq, Repr

/-- A decoded XML document (`lxml.objectify` tree), restricted to the
elements the client ever reads.  A `none` component means the element is
absent, so that accessing it raises `AttributeError`; a present element is
modelled by the text it carries. -/
structure Doc where
  webfsapi : Option String := none
  sessionId : Option String := none
  status : Option String := none
  valueC8 : Option String := none
  valueU8 : Option String := none
  valueU32 : Option String := none
  items : List XItem := []
deriving DecidableEq, Repr

/-- Which program point of the source issued a request: the bootstrap
discovery GET (`get_fsapi_endpoint`), the CREATE_SESSION GET
(`create_session`), or one of the two main GETs inside `call`. -/
inductive ReqKind where
  | discovery
  | session
  | main
deriving DecidableEq, Repr

/-- An HTTP GET as issued through the transport. -/
structure Request where
  kind : ReqKind
  url : String
  params : Params
deriving DecidableEq, Repr

instance {ε α : Type} [DecidableEq ε] [DecidableEq α] : DecidableEq (Except ε α) := fun a b =>
  match a, b with
  | .ok x, .ok y =>
    if h : x = y then isTrue (by rw [h]) else isFalse (by intro hc; cases hc; exact h rfl)
  | .error x, .error y =>
    if h : x = y then isTrue (by rw [h]) else isFalse (by intro hc; cases hc; exact h rfl)
  | .ok _, .error _ => isFalse (by intro hc; cases hc)
  | .error _, .ok _ => isFalse (by intro hc; cases hc)

/-- The transport's answer to one GET: the HTTP status, and the body —
reading the body (`await result.text(...)`) may itself raise. -/
structure Response where
  status : Int
  body : Except Err String
deriving DecidableEq, Repr

/-- The external collaborators: `http n req` answers the `n`-th HTTP GET
issued by the client (a `.error` is an exception raised by the transport:
network failure or timeout); `parse text` is `objectify.fromstring(text)`
(a `.error` is an XML syntax error). -/
structure Env where
  http : Nat → Request → Except Err Response
  parse : String → Except Err Doc

/-- The mutable attributes of an `AFSAPI` instance (the per-call `timeout`
has no observable effect in this model and is omitted). -/
structure ClientState where
  fsapi_device_url : String
  pin : String
  intrusive : Bool := false
  sid : Option String := none
  webfsapi : Option String := none
  modes : Option (List Item) := none
  volume_steps : Option Int := none
  equalisers : Option (List Item) := none
deriving DecidableEq, Repr

/-- Full machine state: the client instance plus the instrumentation
(number of HTTP requests issued so far, and the list of issued requests). -/
structure St where
  client : ClientState
  reqCount : Nat := 0
  trace : List Request := []
deriving DecidableEq, Repr

/-- Record one issued request in the instrumentation state. -/
def afterReq (s : St) (req : Request) : St :=
  { s with reqCount := s.reqCount + 1, trace := s.trace ++ [req] }

/-- Issue one HTTP GET through the transport. -/
def httpGet (env : Env) (req : Request) (s : St) : St × Except Err Response :=
  (afterReq s req, env.http s.reqCount req)

/-- Access an element of a decoded document; absent raises `AttributeError`. -/
def attrE (o : Option String) : Except Err String :=
  match o with
  | some t => .ok t
  | none => .error .attrError

/-- The discovery request issued by `get_fsapi_endpoint` (lines 129-135). -/
def discoveryRequest (c : ClientState) : Request :=
  ⟨.discovery, c.fsapi_device_url, []⟩

/-- `AFSAPI.get_fsapi_endpoint` (lines 129-135): GET the bootstrap device
url, parse the body, return `doc.webfsapi.text`.  The function issues
exactly one GET and then only computes, so the post-state is written as the
first component. -/
def get_fsapi_endpoint (env : Env) (s : St) : St × Except Err String :=
  (afterReq s (discoveryRequest s.client),
   match env.http s.reqCount (discoveryRequest s.client) with
   | .error e => .error e
   | .ok r =>
     match r.body with
     | .error e => .error e
     | .ok text =>
       match env.parse text with
       | .error e => .error e
       | .ok doc => attrE doc.webfsapi)

/-- The CREATE_SESSION request issued by `create_session` (lines 140-142). -/
def sessionRequest (c : ClientState) : Request :=
  ⟨.session, pyStrOpt c.webfsapi ++ "/" ++ "CREATE_SESSION", [("pin", Value.vtext c.pin)]⟩

/-- `AFSAPI.create_session` (lines 137-145): GET CREATE_SESSION with the
pin, parse the body, return `doc.sessionId.text`.  As for
`get_fsapi_endpoint`, exactly one GET is issued and the post-state is the
first component. -/
def create_session (env : Env) (s : St) : St × Except Err String :=
  (afterReq s (sessionRequest s.client),
   match env.http s.reqCount (sessionRequest s.client) with
   | .error e => .error e
   | .ok r =>
     match r.body with
     | .error e => .error e
     | .ok text =>
       match env.parse text with
       | .error e => .error e
       | .ok doc => attrE doc.sessionId)

/-- `req_url = '%s/%s' % (self.__webfsapi, path)` (line 168). -/
def reqUrl (c : ClientState) (path : String) : String :=
  pyStrOpt c.webfsapi ++ "/" ++ path

/-- The parameter map of the first attempt (lines 157-166):
`{'pin': pin}`, plus `'sid'` when `self.sid is not None`, updated with
`extra` (a non-dict `extra`, i.e. `none`, is replaced by `{}`). -/
def firstParams (c : ClientState) (extra : Option Params) : Params :=
  dUpdate
    (match c.sid with
     | some sd => dInsert [("pin", Value.vtext c.pin)] "sid" (Value.vtext sd)
     | none => [("pin", Value.vtext c.pin)])
    (extra.getD [])

/-- The rebuilt parameter map of the retry (lines 177-178):
`{'pin': pin, 'sid': fresh sid}`, updated with `extra`. -/
def retryParams (c : ClientState) (sid' : String) (extra : Option Params) : Params :=
  dUpdate [("pin", Value.vtext c.pin), ("sid", Value.vtext sid')] (extra.getD [])

/-- The first main GET of a dispatch (line 169). -/
def mainRequest (c : ClientState) (path : String) (extra : Option Params) : Request :=
  ⟨.main, reqUrl c path, firstParams c extra⟩

/-- The retried main GET of a dispatch (line 179): same url, rebuilt params. -/
def retryRequest (c : ClientState) (path : String) (sid' : String)
    (extra : Option Params) : Request :=
  ⟨.main, reqUrl c path, retryParams c sid' extra⟩

/-- Lines 151-152 of `call`: `if not self.__webfsapi: self.__webfsapi =
await self.get_fsapi_endpoint()`. -/
def endpointStep (env : Env) (s : St) : St × Except Err Unit :=
  if pyFalsyS s.client.webfsapi then
    let s1 := (get_fsapi_endpoint env s).1
    match (get_fsapi_endpoint env s).2 with
    | .error e => (s1, .error e)
    | .ok w =>
      ({ s1 with client := { s1.client with webfsapi := some w } }, .ok ())
  else (s, .ok ())

/-- Lines 154-155 of `call`: `if create_session and not self.sid:
self.sid = await self.create_session()`. -/
def sessionStep (env : Env) (cs : Bool) (s : St) : St × Except Err Unit :=
  if cs && pyFalsyS s.client.sid then
    let s1 := (create_session env s).1
    match (create_session env s).2 with
    | .error e => (s1, .error e)
    | .ok sd =>
      ({ s1 with client := { s1.client with sid := some sd } }, .ok ())
  else (s, .ok ())

/-- The common tail of both branches of `call` (lines 173, 181, 183):
`text = await result.text(...)` followed by `objectify.fromstring(text)`. -/
def readAndParse (env : Env) (result : Response) : Except Err Doc :=
  match result.body with
  | .error e => .error e
  | .ok text => env.parse text

/-- Lines 157-183 of `call`: build the parameters, issue the GET; on a
non-200 status create a fresh session (stored in `self.sid`), rebuild the
parameters and reissue exactly once; read and parse the final body. -/
def mainPhase (env : Env) (path : String) (extra : Option Params) (s : St) :
    St × Except Err Doc :=
  let req := mainRequest s.client path extra
  let s3 := afterReq s req
  match env.http s.reqCount req with
  | .error e => (s3, .error e)
  | .ok result =>
    if result.status = 200 then (s3, readAndParse env result)
    else
      let s4 := (create_session env s3).1
      match (create_session env s3).2 with
      | .error e => (s4, .error e)
      | .ok sd =>
        let s5 : St := { s4 with client := { s4.client with sid := some sd } }
        let req2 := retryRequest s.client path sd extra
        let s6 := afterReq s5 req2
        match env.http s5.reqCount req2 with
        | .error e => (s6, .error e)
        | .ok result2 => (s6, readAndParse env result2)

/-- Lines 154-183 of `call`: the session step followed by the main phase. -/
def sessionAndMain (env : Env) (path : String) (extra : Option Params) (cs : Bool) (s : St) :
    St × Except Err Doc :=
  match sessionStep env cs s with
  | (s2, .error e) => (s2, .error e)
  | (s2, .ok _) => mainPhase env path extra s2

/-- The body of `AFSAPI.call` (lines 150-183), i.e. everything inside the
`try`: resolve the endpoint if unset, create a session if requested and no
(truthy) sid is held, then the main request phase. -/
def callBody (env : Env) (path : String) (extra : Option Params) (cs : Bool) (s : St) :
    St × Except Err Doc :=
  match endpointStep env s with
  | (s1, .error e) => (s1, .error e)
  | (s1, .ok _) => sessionAndMain env path extra cs s1

/-- `AFSAPI.call` (lines 147-187): the body wrapped in
`try ... except Exception: logging.info(...); return None`. -/
def call (env : Env) (path : String) (extra : Option Params) (cs : Bool) (s : St) :
    St × Except Err (Option Doc) :=
  match callBody env path extra cs s with
  | (s1, .ok doc) => (s1, .ok (some doc))
  | (s1, .error _) => (s1, .ok none)

/-- `AFSAPI.close` (lines 111-116): if a sid is held, dispatch
DELETE_SESSION; then close the transport session (the transport teardown is
an external collaborator action with no modelled state). -/
def close (env : Env) (s : St) : St × Except Err Unit :=
  match (if s.client.sid.isSome then call env "DELETE_SESSION" none false s
         else (s, Except.ok (none : Option Doc))) with
  | (s1, .error e) => (s1, .error e)
  | (s1, .ok _) => (s1, .ok ())

/-- The name→path table `AFSAPI.API_CALLS` (lines 64-87). -/
def API_CALLS : List (String × String) :=
  [("friendly_name", "netRemote.sys.info.friendlyName"),
   ("power", "netRemote.sys.power"),
   ("mode", "netRemote.sys.mode"),
   ("valid_modes", "netRemote.sys.caps.validModes"),
   ("equalisers", "netRemote.sys.caps.eqPresets"),
   ("sleep", "netRemote.sys.sleep"),
   ("volume_steps", "netRemote.sys.caps.volumeSteps"),
   ("volume", "netRemote.sys.audio.volume"),
   ("mute", "netRemote.sys.audio.mute"),
   ("status", "netRemote.play.status"),
   ("name", "netRemote.play.info.name"),
   ("control", "netRemote.play.control"),
   ("position", "netRemote.play.position"),
   ("text", "netRemote.play.info.text"),
   ("artist", "netRemote.play.info.artist"),
   ("album", "netRemote.play.info.album"),
   ("graphic_uri", "netRemote.play.info.graphicUri"),
   ("duration", "netRemote.play.info.duration")]

/-- `self.API_CALLS.get(key)`: every call site in the source uses a key
present in the table, so the default (Python `None`, which string
interpolation would render as "None") is never reached. -/
def apiGet (k : String) : String :=
  (API_CALLS.lookup k).getD "None"

/-- `AFSAPI.handle_get` (lines 192-195): dispatch a GET without forcing a
session. -/
def handle_get (env : Env) (item : String) (s : St) : St × Except Err (Option Doc) :=
  call env ("GET/" ++ item) none false s

/-- `AFSAPI.handle_set` (lines 197-203): dispatch a SET with
`{'value': value}` and `create_session=True`; `None` document gives `None`,
otherwise the result is `doc.status == 'FS_OK'` (a missing `status` element
raises `AttributeError`). -/
def handle_set (env : Env) (item : String) (value : Value) (s : St) :
    St × Except Err (Option Bool) :=
  match call env ("SET/" ++ item) (some [("value", value)]) true s with
  | (s1, .error e) => (s1, .error e)
  | (s1, .ok none) => (s1, .ok none)
  | (s1, .ok (some doc)) =>
    match doc.status with
    | none => (s1, .error .attrError)
    | some st => (s1, .ok (some (st = "FS_OK")))

/-- `AFSAPI.handle_text` (lines 205-211): `doc.value.c8_array.text or None`. -/
def handle_text (env : Env) (item : String) (s : St) : St × Except Err (Option String) :=
  match handle_get env item s with
  | (s1, .error e) => (s1, .error e)
  | (s1, .ok none) => (s1, .ok none)
  | (s1, .ok (some doc)) =>
    match doc.valueC8 with
    | none => (s1, .error .attrError)
    | some t => (s1, .ok (if t = "" then none else some t))

/-- `AFSAPI.handle_int` (lines 213-219): `int(doc.value.u8.text) or None`. -/
def handle_int (env : Env) (item : String) (s : St) : St × Except Err (Option Int) :=
  match handle_get env item s with
  | (s1, .error e) => (s1, .error e)
  | (s1, .ok none) => (s1, .ok none)
  | (s1, .ok (some doc)) =>
    match doc.valueU8 with
    | none => (s1, .error .attrError)
    | some t =>
      match pyInt t with
      | .error e => (s1, .error e)
      | .ok n => (s1, .ok (if n = 0 then none else some n))

/-- `AFSAPI.handle_long` (lines 222-228): `int(doc.value.u32.text) or None`. -/
def handle_long (env : Env) (item : String) (s : St) : St × Except Err (Option Int) :=
  match handle_get env item s with
  | (s1, .error e) => (s1, .error e)
  | (s1, .ok none) => (s1, .ok none)
  | (s1, .ok (some doc)) =>
    match doc.valueU32 with
    | none => (s1, .error .attrError)
    | some t =>
      match pyInt t with
      | .error e => (s1, .error e)
      | .ok n => (s1, .ok (if n = 0 then none else some n))

/-- The inner loop of `handle_list` (lines 246-247): for each field,
`temp[field.get('name')] = list(field.iterchildren()).pop()` —
`pop()` of an empty child list raises `IndexError`. -/
def decodeFields : Item → List XField → Except Err Item
  | acc, [] => .ok acc
  | acc, f :: rest =>
    match f.children.getLast? with
    | some v => decodeFields (dInsert acc f.name (.vtext v)) rest
    | none => .error .indexError

/-- One iteration of the outer loop of `handle_list` (lines 244-248):
start from `{'band': index}` and assign each field in order. -/
def decodeItem (idx : Nat) (it : XItem) : Except Err Item :=
  decodeFields [(some "band", Value.vint (Int.ofNat idx))] it.fields

/-- The whole loop of `handle_list` over `enumerate(doc.iterchildren('item'))`. -/
def decodeItems : Nat → List XItem → Except Err (List Item)
  | _, [] => .ok []
  | idx, it :: rest =>
    match decodeItem idx it with
    | .error e => .error e
    | .ok item =>
      match decodeItems (idx + 1) rest with
      | .error e => .error e
      | .ok items => .ok (item :: items)

/-- `AFSAPI.handle_list` (lines 230-250): dispatch LIST_GET_NEXT with the
page-start suffix minus-one and `maxItems=100`, without forcing a session; `[]` on a `None`
document or a status other than `FS_OK` (a missing `status` element raises);
otherwise decode the items. -/
def handle_list (env : Env) (item : String) (s : St) : St × Except Err (List Item) :=
  match call env ("LIST_GET_NEXT/" ++ item ++ "/-1") (some [("maxItems", Value.vint 100)])
      false s with
  | (s1, .error e) => (s1, .error e)
  | (s1, .ok none) => (s1, .ok [])
  | (s1, .ok (some doc)) =>
    match doc.status with
    | none => (s1, .error .attrError)
    | some st =>
      if st = "FS_OK" then (s1, decodeItems 0 doc.items)
      else (s1, .ok [])

/-- The comprehension of `collect_labels` (line 257):
`[str(item['label']) for item in items if item['label']]` — a missing
`'label'` key raises `KeyError`. -/
def collectLabelsGo : List Item → Except Err (List String)
  | [] => .ok []
  | it :: rest =>
    match dGet it (some "label") with
    | none => .error .keyError
    | some v =>
      match collectLabelsGo rest with
      | .error e => .error e
      | .ok ls => .ok (if pyTruthy v then pyStr v :: ls else ls)

/-- `AFSAPI.collect_labels` (lines 252-257). -/
def collect_labels : Option (List Item) → Except Err (List String)
  | none => .ok []
  | some items => collectLabelsGo items

/-- `AFSAPI.get_modes` (lines 282-288): fetch the valid-modes list when the
cached value is falsy (`None` or `[]`), then return the cached attribute. -/
def get_modes (env : Env) (s : St) : St × Except Err (List Item) :=
  if pyFalsyL s.client.modes then
    match handle_list env (apiGet "valid_modes") s with
    | (s1, .error e) => (s1, .error e)
    | (s1, .ok l) =>
      ({ s1 with client := { s1.client with modes := some l } }, .ok l)
  else (s, .ok (s.client.modes.getD []))

/-- `AFSAPI.get_equalisers` (lines 402-408): same caching pattern over the
equaliser presets. -/
def get_equalisers (env : Env) (s : St) : St × Except Err (List Item) :=
  if pyFalsyL s.client.equalisers then
    match handle_list env (apiGet "equalisers") s with
    | (s1, .error e) => (s1, .error e)
    | (s1, .ok l) =>
      ({ s1 with client := { s1.client with equalisers := some l } }, .ok l)
  else (s, .ok (s.client.equalisers.getD []))

/-- `AFSAPI.get_volume_steps` (lines 316-322): fetch the scalar when the
cached value is falsy (`None` or `0`), then return the cached attribute. -/
def get_volume_steps (env : Env) (s : St) : St × Except Err (Option Int) :=
  if pyFalsyI s.client.volume_steps then
    match handle_int env (apiGet "volume_steps") s with
    | (s1, .error e) => (s1, .error e)
    | (s1, .ok v) =>
      ({ s1 with client := { s1.client with volume_steps := v } }, .ok v)
  else (s, .ok s.client.volume_steps)

/-- The scan of `get_mode` (lines 297-303): `mode = None`, then for each
item, if `temp_mode['band'] == int_mode` then `mode = temp_mode['label']`
(missing keys raise `KeyError`); the last match wins. -/
def modeScanBand (int_mode : Option Int) : Option Value → List Item → Except Err (Option Value)
  | acc, [] => .ok acc
  | acc, tm :: rest =>
    match dGet tm (some "band") with
    | none => .error .keyError
    | some b =>
      if pyEqVOI b int_mode then
        match dGet tm (some "label") with
        | none => .error .keyError
        | some l => modeScanBand int_mode (some l) rest
      else modeScanBand int_mode acc rest

/-- `AFSAPI.get_mode` (lines 295-304): read the mode index via
`handle_long`, scan the cached mode list for a matching band, return
`str(mode)` — `str(None)` is the literal string "None". -/
def get_mode (env : Env) (s : St) : St × Except Err String :=
  match handle_long env (apiGet "mode") s with
  | (s1, .error e) => (s1, .error e)
  | (s1, .ok int_mode) =>
    match get_modes env s1 with
    | (s2, .error e) => (s2, .error e)
    | (s2, .ok modes) =>
      match modeScanBand int_mode none modes with
      | .error e => (s2, .error e)
      | .ok mode =>
        (s2, .ok (match mode with
                  | none => "None"
                  | some v => pyStr v))

/-- The scan of `set_mode` (lines 308-312): `mode = -1`, then for each item,
if `temp_mode['label'] == value` then `mode = temp_mode['band']`; the last
match wins. -/
def modeScanLabel (value : String) : Value → List Item → Except Err Value
  | acc, [] => .ok acc
  | acc, tm :: rest =>
    match dGet tm (some "label") with
    | none => .error .keyError
    | some l =>
      if pyEqVStr l value then
        match dGet tm (some "band") with
        | none => .error .keyError
        | some b => modeScanLabel value b rest
      else modeScanLabel value acc rest

/-- `AFSAPI.set_mode` (lines 306-314): look the label up in the cached mode
list (no match leaves `-1`) and SET the mode to the found band. -/
def set_mode (env : Env) (value : String) (s : St) : St × Except Err (Option Bool) :=
  match get_modes env s with
  | (s1, .error e) => (s1, .error e)
  | (s1, .ok modes) =>
    match modeScanLabel value (.vint (-1)) modes with
    | .error e => (s1, .error e)
    | .ok mode => handle_set env (apiGet "mode") mode s1

/-! ### Instrumentation helpers and structural lemmas -/

/-- Whether a request was issued at one of the two main GET sites of `call`. -/
def isMain (r : Request) : Bool :=
  match r.kind with
  | .main => true
  | _ => false

/-- Number of main-site requests in a trace. -/
def countMain (l : List Request) : Nat :=
  l.countP isMain

/-- The subtrace of main-site requests. -/
def filterMain (l : List Request) : List Request :=
  l.filter isMain

theorem afterReq_client (s : St) (r : Request) : (afterReq s r).client = s.client := rfl

theorem afterReq_trace (s : St) (r : Request) : (afterReq s r).trace = s.trace ++ [r] := rfl

theorem get_fsapi_endpoint_fst (env : Env) (s : St) :
    (get_fsapi_endpoint env s).1 = afterReq s (discoveryRequest s.client) := rfl

theorem create_session_fst (env : Env) (s : St) :
    (create_session env s).1 = afterReq s (sessionRequest s.client) := rfl

/-- Exhaustive description of `endpointStep`: skip when the endpoint is
set (truthy), else one discovery request that either raises or stores the
resolved endpoint. -/
theorem endpointStep_spec (env : Env) (s : St) :
    (pyFalsyS s.client.webfsapi = false ∧ endpointStep env s = (s, .ok ())) ∨
    (pyFalsyS s.client.webfsapi = true ∧
      ((∃ e, endpointStep env s = (afterReq s (discoveryRequest s.client), .error e)) ∨
       (∃ w, endpointStep env s =
         ({ afterReq s (discoveryRequest s.client) with
            client := { s.client with webfsapi := some w } }, .ok ())))) := by
  by_cases h : pyFalsyS s.client.webfsapi
  · right
    refine ⟨h, ?_⟩
    simp only [endpointStep, h, if_true]
    rcases hr : (get_fsapi_endpoint env s).2 with e | w
    · exact Or.inl ⟨e, rfl⟩
    · exact Or.inr ⟨w, rfl⟩
  · left
    rw [Bool.not_eq_true] at h
    exact ⟨h, by simp only [endpointStep, h, Bool.false_eq_true, if_false]⟩

/-- Exhaustive description of `sessionStep`: skip unless a session is
wanted and no truthy sid is held, else one CREATE_SESSION request that
either raises or stores the fresh sid. -/
theorem sessionStep_spec (env : Env) (cs : Bool) (s : St) :
    ((cs && pyFalsyS s.client.sid) = false ∧ sessionStep env cs s = (s, .ok ())) ∨
    ((cs && pyFalsyS s.client.sid) = true ∧
      ((∃ e, sessionStep env cs s = (afterReq s (sessionRequest s.client), .error e)) ∨
       (∃ sd, sessionStep env cs s =
         ({ afterReq s (sessionRequest s.client) with
            client := { s.client with sid := some sd } }, .ok ())))) := by
  by_cases h : (cs && pyFalsyS s.client.sid) = true
  · right
    refine ⟨h, ?_⟩
    simp only [sessionStep, h, if_true]
    rcases hr : (create_session env s).2 with e | sd
    · exact Or.inl ⟨e, rfl⟩
    · exact Or.inr ⟨sd, rfl⟩
  · left
    rw [Bool.not_eq_true] at h
    exact ⟨h, by simp only [sessionStep, h, Bool.false_eq_true, if_false]⟩

/-- Exhaustive description of `mainPhase`: the main GET raises, or succeeds
with status 200 (one main request), or has a non-200 status followed by a
failing CREATE_SESSION (main + session request), or by a successful
CREATE_SESSION and exactly one reissued main request. -/
theorem mainPhase_spec (env : Env) (path : String) (extra : Option Params) (s : St) :
    (∃ e, mainPhase env path extra s =
       (afterReq s (mainRequest s.client path extra), .error e)) ∨
    (∃ result, env.http s.reqCount (mainRequest s.client path extra) = .ok result ∧
       result.status = 200 ∧
       mainPhase env path extra s =
         (afterReq s (mainRequest s.client path extra), readAndParse env result)) ∨
    (∃ e, mainPhase env path extra s =
       (afterReq (afterReq s (mainRequest s.client path extra))
          (sessionRequest s.client), .error e)) ∨
    (∃ sd x, mainPhase env path extra s =
       (afterReq { afterReq (afterReq s (mainRequest s.client path extra))
                     (sessionRequest s.client) with
                   client := { s.client with sid := some sd } }
          (retryRequest s.client path sd extra), x)) := by
  simp only [mainPhase]
  rcases hh : env.http s.reqCount (mainRequest s.client path extra) with e | result
  · exact Or.inl ⟨e, rfl⟩
  · dsimp only
    by_cases hst : result.status = 200
    · rw [if_pos hst]
      exact Or.inr (Or.inl ⟨result, rfl, hst, rfl⟩)
    · rw [if_neg hst]
      rcases hcs : (create_session env (afterReq s (mainRequest s.client path extra))).2
          with e | sd
      · exact Or.inr (Or.inr (Or.inl ⟨e, rfl⟩))
      · dsimp only
        rcases hr2 : env.http
            (create_session env (afterReq s (mainRequest s.client path extra))).1.reqCount
            (retryRequest s.client path sd extra) with e2 | result2
        · exact Or.inr (Or.inr (Or.inr ⟨sd, .error e2, rfl⟩))
        · exact Or.inr (Or.inr (Or.inr ⟨sd, readAndParse env result2, rfl⟩))

theorem isMain_discovery (c : ClientState) : isMain (discoveryRequest c) = false := rfl

theorem isMain_session (c : ClientState) : isMain (sessionRequest c) = false := rfl

theorem isMain_main (c : ClientState) (p : String) (e : Option Params) :
    isMain (mainRequest c p e) = true := rfl

theorem isMain_retry (c : ClientState) (p sd : String) (e : Option Params) :
    isMain (retryRequest c p sd e) = true := rfl

theorem countMain_nil : countMain [] = 0 := rfl

theorem countMain_cons (r : Request) (l : List Request) :
    countMain (r :: l) = countMain l + (if isMain r then 1 else 0) := by
  simp [countMain, List.countP_cons]

theorem countMain_append (a b : List Request) :
    countMain (a ++ b) = countMain a + countMain b := by
  simp [countMain, List.countP_append]

/-- A dispatch's main phase issues at most two main-site requests, issues at
least one request, and never touches the capability caches, the pin or the
device url. -/
theorem mainPhase_shape (env : Env) (path : String) (extra : Option Params) (t : St) :
    countMain (mainPhase env path extra t).1.trace ≤ countMain t.trace + 2 ∧
    t.trace.length < (mainPhase env path extra t).1.trace.length ∧
    (mainPhase env path extra t).1.client.modes = t.client.modes ∧
    (mainPhase env path extra t).1.client.equalisers = t.client.equalisers ∧
    (mainPhase env path extra t).1.client.volume_steps = t.client.volume_steps ∧
    (mainPhase env path extra t).1.client.pin = t.client.pin ∧
    (mainPhase env path extra t).1.client.fsapi_device_url = t.client.fsapi_device_url := by
  rcases mainPhase_spec env path extra t with ⟨e, hm⟩ | ⟨r, hh, hst, hm⟩ | ⟨e, hm⟩ |
      ⟨sd, x, hm⟩ <;> rw [hm] <;>
    refine ⟨?_, ?_, rfl, rfl, rfl, rfl, rfl⟩ <;>
    simp [afterReq, countMain_append, countMain_cons, countMain_nil, isMain_main,
      isMain_session, isMain_retry]

/-- Same bounds for the session step followed by the main phase. -/
theorem sessionAndMain_shape (env : Env) (path : String) (extra : Option Params)
    (cs : Bool) (t : St) :
    countMain (sessionAndMain env path extra cs t).1.trace ≤ countMain t.trace + 2 ∧
    t.trace.length < (sessionAndMain env path extra cs t).1.trace.length ∧
    (sessionAndMain env path extra cs t).1.client.modes = t.client.modes ∧
    (sessionAndMain env path extra cs t).1.client.equalisers = t.client.equalisers ∧
    (sessionAndMain env path extra cs t).1.client.volume_steps = t.client.volume_steps ∧
    (sessionAndMain env path extra cs t).1.client.pin = t.client.pin ∧
    (sessionAndMain env path extra cs t).1.client.fsapi_device_url =
      t.client.fsapi_device_url := by
  rcases sessionStep_spec env cs t with ⟨h1, hs⟩ | ⟨h1, ⟨e, hs⟩ | ⟨sd, hs⟩⟩
  · simp only [sessionAndMain, hs]
    exact mainPhase_shape env path extra t
  · simp only [sessionAndMain, hs]
    refine ⟨?_, ?_, rfl, rfl, rfl, rfl, rfl⟩ <;>
      simp [afterReq, countMain_append, countMain_cons, countMain_nil, isMain_session]
  · simp only [sessionAndMain, hs]
    obtain ⟨hc, hl, hm1, hm2, hm3, hm4, hm5⟩ := mainPhase_shape env path extra
      { afterReq t (sessionRequest t.client) with
        client := { t.client with sid := some sd } }
    have htr : ({ afterReq t (sessionRequest t.client) with
        client := { t.client with sid := some sd } } : St).trace
        = t.trace ++ [sessionRequest t.client] := rfl
    rw [htr] at hc hl
    refine ⟨?_, ?_, hm1, hm2, hm3, hm4, hm5⟩
    · simp only [countMain_append, countMain_cons, countMain_nil, isMain_session,
        if_false, Bool.false_eq_true] at hc
      omega
    · simp only [List.length_append, List.length_cons, List.length_nil] at hl
      omega

/-- A whole dispatch body issues at most two main-site requests and at
least one request, and never touches the capability caches, the pin or the
device url. -/
theorem callBody_shape (env : Env) (path : String) (extra : Option Params)
    (cs : Bool) (s : St) :
    countMain (callBody env path extra cs s).1.trace ≤ countMain s.trace + 2 ∧
    s.trace.length < (callBody env path extra cs s).1.trace.length ∧
    (callBody env path extra cs s).1.client.modes = s.client.modes ∧
    (callBody env path extra cs s).1.client.equalisers = s.client.equalisers ∧
    (callBody env path extra cs s).1.client.volume_steps = s.client.volume_steps ∧
    (callBody env path extra cs s).1.client.pin = s.client.pin ∧
    (callBody env path extra cs s).1.client.fsapi_device_url =
      s.client.fsapi_device_url := by
  rcases endpointStep_spec env s with ⟨h1, he⟩ | ⟨h1, ⟨e, he⟩ | ⟨w, he⟩⟩
  · simp only [callBody, he]
    exact sessionAndMain_shape env path extra cs s
  · simp only [callBody, he]
    refine ⟨?_, ?_, rfl, rfl, rfl, rfl, rfl⟩ <;>
      simp [afterReq, countMain_append, countMain_cons, countMain_nil, isMain_discovery]
  · simp only [callBody, he]
    obtain ⟨hc, hl, hm1, hm2, hm3, hm4, hm5⟩ := sessionAndMain_shape env path extra cs
      { afterReq s (discoveryRequest s.client) with
        client := { s.client with webfsapi := some w } }
    have htr : ({ afterReq s (discoveryRequest s.client) with
        client := { s.client with webfsapi := some w } } : St).trace
        = s.trace ++ [discoveryRequest s.client] := rfl
    rw [htr] at hc hl
    refine ⟨?_, ?_, hm1, hm2, hm3, hm4, hm5⟩
    · simp only [countMain_append, countMain_cons, countMain_nil, isMain_discovery,
        if_false, Bool.false_eq_true] at hc
      omega
    · simp only [List.length_append, List.length_cons, List.length_nil] at hl
      omega

/-- `call` returns the same state as its body. -/
theorem call_fst (env : Env) (path : String) (extra : Option Params) (cs : Bool) (s : St) :
    (call env path extra cs s).1 = (callBody env path extra cs s).1 := by
  rcases hb : callBody env path extra cs s with ⟨s1, r⟩
  cases r <;> simp [call, hb]

/-- The `except`-clause of `call` swallows every exception raised in its
body: the dispatcher always returns normally. -/
theorem call_never_errors (env : Env) (path : String) (extra : Option Params)
    (cs : Bool) (s : St) :
    ∃ s1 v, call env path extra cs s = (s1, Except.ok v) := by
  rcases hb : callBody env path extra cs s with ⟨s1, r⟩
  cases r with
  | error e => exact ⟨s1, none, by simp [call, hb]⟩
  | ok doc => exact ⟨s1, some doc, by simp [call, hb]⟩

/-- The shape facts transported to `call`. -/
theorem call_shape (env : Env) (path : String) (extra : Option Params)
    (cs : Bool) (s : St) :
    countMain (call env path extra cs s).1.trace ≤ countMain s.trace + 2 ∧
    s.trace.length < (call env path extra cs s).1.trace.length ∧
    (call env path extra cs s).1.client.modes = s.client.modes ∧
    (call env path extra cs s).1.client.equalisers = s.client.equalisers ∧
    (call env path extra cs s).1.client.volume_steps = s.client.volume_steps ∧
    (call env path extra cs s).1.client.pin = s.client.pin ∧
    (call env path extra cs s).1.client.fsapi_device_url = s.client.fsapi_device_url := by
  rw [call_fst]
  exact callBody_shape env path extra cs s

/-- `handle_set` only post-processes the dispatched document: its
post-state is the dispatcher's post-state. -/
theorem handle_set_fst (env : Env) (item : String) (value : Value) (s : St) :
    (handle_set env item value s).1 =
    (call env ("SET/" ++ item) (some [("value", value)]) true s).1 := by
  rcases hc : call env ("SET/" ++ item) (some [("value", value)]) true s with ⟨s1, r⟩
  unfold handle_set
  rw [hc]
  rcases r with e | od
  · rfl
  · rcases od with _ | d
    · rfl
    · dsimp only
      rcases hs : d.status with _ | st <;> simp [hs]

/-- `handle_int` only post-processes: its post-state is `handle_get`'s. -/
theorem handle_int_fst (env : Env) (item : String) (s : St) :
    (handle_int env item s).1 = (handle_get env item s).1 := by
  rcases hg : handle_get env item s with ⟨s1, r⟩
  unfold handle_int
  rw [hg]
  rcases r with e | od
  · rfl
  · rcases od with _ | d
    · rfl
    · dsimp only
      rcases hv : d.valueU8 with _ | t
      · simp [hv]
      · rcases hn : pyInt t with e | n <;> simp [hv, hn]

/-- `handle_long` only post-processes: its post-state is `handle_get`'s. -/
theorem handle_long_fst (env : Env) (item : String) (s : St) :
    (handle_long env item s).1 = (handle_get env item s).1 := by
  rcases hg : handle_get env item s with ⟨s1, r⟩
  unfold handle_long
  rw [hg]
  rcases r with e | od
  · rfl
  · rcases od with _ | d
    · rfl
    · dsimp only
      rcases hv : d.valueU32 with _ | t
      · simp [hv]
      · rcases hn : pyInt t with e | n <;> simp [hv, hn]

/-- `handle_list` only post-processes: its post-state is the dispatcher's. -/
theorem handle_list_fst (env : Env) (item : String) (s : St) :
    (handle_list env item s).1 =
    (call env ("LIST_GET_NEXT/" ++ item ++ "/-1")
      (some [("maxItems", Value.vint 100)]) false s).1 := by
  rcases hc : call env ("LIST_GET_NEXT/" ++ item ++ "/-1")
      (some [("maxItems", Value.vint 100)]) false s with ⟨s1, r⟩
  unfold handle_list
  rw [hc]
  rcases r with e | od
  · rfl
  · rcases od with _ | d
    · rfl
    · dsimp only
      rcases hs : d.status with _ | st
      · simp [hs]
      · by_cases hst : st = "FS_OK" <;> simp [hs, hst]

/-- A capability accessor whose cache holds a truthy (non-empty) list
returns it unchanged, without touching the state: `get_modes`. -/
theorem get_modes_cached (env : Env) (s : St) (l : List Item)
    (h1 : s.client.modes = some l) (h2 : l ≠ []) :
    get_modes env s = (s, Except.ok l) := by
  unfold get_modes
  rw [h1]
  have hf : pyFalsyL (some l) = false := by
    simp [pyFalsyL, List.isEmpty_eq_true, h2]
  rw [hf]
  simp

/-- Same for `get_equalisers`. -/
theorem get_equalisers_cached (env : Env) (s : St) (l : List Item)
    (h1 : s.client.equalisers = some l) (h2 : l ≠ []) :
    get_equalisers env s = (s, Except.ok l) := by
  unfold get_equalisers
  rw [h1]
  have hf : pyFalsyL (some l) = false := by
    simp [pyFalsyL, List.isEmpty_eq_true, h2]
  rw [hf]
  simp

/-- Same for `get_volume_steps` with a non-zero cached scalar. -/
theorem get_volume_steps_cached (env : Env) (s : St) (v : Int)
    (h1 : s.client.volume_steps = some v) (h2 : v ≠ 0) :
    get_volume_steps env s = (s, Except.ok (some v)) := by
  unfold get_volume_steps
  rw [h1]
  have hf : pyFalsyI (some v) = false := by simp [pyFalsyI, h2]
  rw [hf]
  simp

/-- Every dispatch through `handle_list` issues at least one request. -/
theorem handle_list_trace (env : Env) (item : String) (s : St) :
    s.trace.length < (handle_list env item s).1.trace.length := by
  rw [handle_list_fst]
  exact (call_shape env ("LIST_GET_NEXT/" ++ item ++ "/-1")
    (some [("maxItems", Value.vint 100)]) false s).2.1

/-- Every dispatch through `handle_int` issues at least one request. -/
theorem handle_int_trace (env : Env) (item : String) (s : St) :
    s.trace.length < (handle_int env item s).1.trace.length := by
  rw [handle_int_fst]
  exact (call_shape env ("GET/" ++ item) none false s).2.1

/-- A dispatch from a resolved endpoint, with no session wanted or needed,
whose first main GET has status 200: one single main request is issued and
the parsed document (or the swallowed decode failure) is returned. -/
theorem call_first_200 (env : Env) (path : String) (extra : Option Params) (cs : Bool)
    (s : St) (r : Response)
    (h1 : pyFalsyS s.client.webfsapi = false)
    (h2 : (cs && pyFalsyS s.client.sid) = false)
    (h3 : env.http s.reqCount (mainRequest s.client path extra) = Except.ok r)
    (h4 : r.status = 200) :
    call env path extra cs s =
      (afterReq s (mainRequest s.client path extra),
       Except.ok (readAndParse env r).toOption) := by
  have hbody : callBody env path extra cs s =
      (afterReq s (mainRequest s.client path extra), readAndParse env r) := by
    simp only [callBody, endpointStep, h1, Bool.false_eq_true, if_false]
    simp only [sessionAndMain, sessionStep, h2, Bool.false_eq_true, if_false]
    simp only [mainPhase]
    rw [h3]
    dsimp only
    rw [if_pos h4]
  unfold call
  rw [hbody]
  rcases hr : readAndParse env r with e | d <;> simp [Except.toOption]

/-- A dispatch from a resolved endpoint, with no session wanted or needed,
whose first main GET returns a non-200 status and whose recovery
CREATE_SESSION succeeds: the fresh sid is stored and exactly one retry is
issued; whatever the retry produces, the dispatcher returns normally from
the retried state. -/
theorem call_first_not200 (env : Env) (path : String) (extra : Option Params) (cs : Bool)
    (s : St) (r : Response) (sd : String)
    (h1 : pyFalsyS s.client.webfsapi = false)
    (h2 : (cs && pyFalsyS s.client.sid) = false)
    (h3 : env.http s.reqCount (mainRequest s.client path extra) = Except.ok r)
    (h4 : r.status ≠ 200)
    (h5 : (create_session env (afterReq s (mainRequest s.client path extra))).2 =
      Except.ok sd) :
    ∃ x, call env path extra cs s =
      (afterReq { afterReq (afterReq s (mainRequest s.client path extra))
           (sessionRequest s.client) with
         client := { s.client with sid := some sd } }
        (retryRequest s.client path sd extra), Except.ok x) := by
  have hbody : ∃ y, callBody env path extra cs s =
      (afterReq { afterReq (afterReq s (mainRequest s.client path extra))
           (sessionRequest s.client) with
         client := { s.client with sid := some sd } }
        (retryRequest s.client path sd extra), y) := by
    simp only [callBody, endpointStep, h1, Bool.false_eq_true, if_false]
    simp only [sessionAndMain, sessionStep, h2, Bool.false_eq_true, if_false]
    simp only [mainPhase]
    rw [h3]
    dsimp only
    rw [if_neg h4, h5]
    dsimp only
    rcases env.http
        (create_session env (afterReq s (mainRequest s.client path extra))).1.reqCount
        (retryRequest s.client path sd extra) with e2 | r2
    · exact ⟨.error e2, rfl⟩
    · exact ⟨readAndParse env r2, rfl⟩
  obtain ⟨y, hb⟩ := hbody
  unfold call
  rw [hb]
  rcases y with e | d
  · exact ⟨none, rfl⟩
  · exact ⟨some d, rfl⟩

/-- A session-wanting dispatch (`create_session=True`) from a resolved
endpoint on a client holding no sid: the session step stores the fresh sid
before the main GET, whose parameters carry that sid. -/
theorem call_creates_session (env : Env) (path : String) (extra : Option Params)
    (s : St) (sd : String) (r : Response)
    (h1 : pyFalsyS s.client.webfsapi = false)
    (h2 : s.client.sid = none)
    (h3 : (create_session env s).2 = Except.ok sd)
    (h4 : env.http (s.reqCount + 1)
      (mainRequest { s.client with sid := some sd } path extra) = Except.ok r)
    (h5 : r.status = 200) :
    call env path extra true s =
      (afterReq { afterReq s (sessionRequest s.client) with
          client := { s.client with sid := some sd } }
        (mainRequest { s.client with sid := some sd } path extra),
       Except.ok (readAndParse env r).toOption) := by
  have hbody : callBody env path extra true s =
      (afterReq { afterReq s (sessionRequest s.client) with
          client := { s.client with sid := some sd } }
        (mainRequest { s.client with sid := some sd } path extra),
       readAndParse env r) := by
    simp only [callBody, endpointStep, h1, Bool.false_eq_true, if_false]
    simp only [sessionAndMain, sessionStep, h2, pyFalsyS, Bool.true_and, if_true]
    rw [h3]
    dsimp only
    simp only [mainPhase]
    dsimp only [create_session, afterReq]
    dsimp only at h4
    rw [h4]
    dsimp only
    rw [if_pos h5]
  unfold call
  rw [hbody]
  rcases hr : readAndParse env r with e | d <;> simp [Except.toOption]

/-- Inserting under a different key leaves a lookup unchanged. -/
theorem dGet_dInsert_ne {κ : Type} [DecidableEq κ] (d : List (κ × Value)) (k k' : κ)
    (v : Value) (h : k ≠ k') : dGet (dInsert d k v) k' = dGet d k' := by
  induction d with
  | nil => simp [dInsert, dGet, h]
  | cons kv rest ih =>
    rcases kv with ⟨k0, v0⟩
    by_cases h0 : k0 = k
    · subst h0
      simp [dInsert, dGet, h]
    · simp only [dInsert, if_neg h0]
      by_cases h1 : k0 = k'
      · simp [dGet, h1]
      · simp [dGet, h1, ih]

/-- The inner field loop never overwrites the synthetic `band` entry as
long as no field is named `band`, and never raises as long as every field
has a child. -/
theorem decodeFields_band (fields : List XField) (acc : Item) (x : Value)
    (h : ∀ f ∈ fields, f.name ≠ some "band" ∧ f.children ≠ [])
    (hacc : dGet acc (some "band") = some x) :
    ∃ m, decodeFields acc fields = Except.ok m ∧ dGet m (some "band") = some x := by
  induction fields generalizing acc with
  | nil => exact ⟨acc, rfl, hacc⟩
  | cons f rest ih =>
    obtain ⟨hname, hch⟩ := h f (by simp)
    obtain ⟨v, hv⟩ : ∃ v, f.children.getLast? = some v := by
      rcases hl : f.children.getLast? with _ | v
      · exact absurd (List.getLast?_eq_none_iff.mp hl) hch
      · exact ⟨v, rfl⟩
    have hacc' : dGet (dInsert acc f.name (Value.vtext v)) (some "band") = some x := by
      rw [dGet_dInsert_ne _ _ _ _ hname, hacc]
    obtain ⟨m, hm, hb⟩ := ih (dInsert acc f.name (Value.vtext v)) (fun g hg =>
      h g (by simp [hg])) hacc'
    refine ⟨m, ?_, hb⟩
    simp only [decodeFields, hv]
    exact hm

/-- The outer item loop of `handle_list`: under the same conditions, one
output item per input item, with `band` equal to the zero-based position. -/
theorem decodeItems_spec (items : List XItem) (idx : Nat)
    (h : ∀ it ∈ items, ∀ f ∈ it.fields, f.name ≠ some "band" ∧ f.children ≠ []) :
    ∃ l, decodeItems idx items = Except.ok l ∧ l.length = items.length ∧
      ∀ i (hi : i < l.length),
        dGet (l.get ⟨i, hi⟩) (some "band") = some (Value.vint (Int.ofNat (idx + i))) := by
  induction items generalizing idx with
  | nil => exact ⟨[], rfl, rfl, fun i hi => absurd hi (by simp)⟩
  | cons it rest ih =>
    obtain ⟨m, hm, hb⟩ := decodeFields_band it.fields
      [(some "band", Value.vint (Int.ofNat idx))] (Value.vint (Int.ofNat idx))
      (h it (by simp)) (by simp [dGet])
    obtain ⟨l, hl, hlen, hband⟩ := ih (idx + 1) (fun x hx => h x (by simp [hx]))
    refine ⟨m :: l, ?_, by simp [hlen], ?_⟩
    · simp only [decodeItems, decodeItem, hm, hl]
    · intro i hi
      cases i with
      | zero => simpa using hb
      | succ j =>
        have hj : j < l.length := by simpa using hi
        have := hband j hj
        simpa [Nat.add_assoc, Nat.add_comm 1 j] using this

/-- When the read mode index is `None` (Python), no item compares equal to
it, so the scan of `get_mode` returns its accumulator unchanged. -/
theorem scanBand_none (M : List Item) (acc : Option Value)
    (h : ∀ it ∈ M, ∃ bi, dGet it (some "band") = some (Value.vint bi)) :
    modeScanBand none acc M = Except.ok acc := by
  induction M with
  | nil => rfl
  | cons it rest ih =>
    obtain ⟨bi, hbi⟩ := h it (by simp)
    simp only [modeScanBand, hbi, pyEqVOI, if_false, Bool.false_eq_true]
    exact ih (fun x hx => h x (by simp [hx]))

/-- The scan of `get_mode` over a list whose matching items all carry the
label `L`: if a match exists the scan returns `L`, otherwise the
accumulator. -/
theorem scanBand_const (b : Int) (L : String) (M : List Item) (acc : Option Value)
    (h1 : ∀ it ∈ M, ∃ bi, dGet it (some "band") = some (Value.vint bi))
    (h2 : ∀ it ∈ M, dGet it (some "band") = some (Value.vint b) →
      dGet it (some "label") = some (Value.vtext L)) :
    ((∃ it ∈ M, dGet it (some "band") = some (Value.vint b)) →
      modeScanBand (some b) acc M = Except.ok (some (Value.vtext L))) ∧
    ((¬ ∃ it ∈ M, dGet it (some "band") = some (Value.vint b)) →
      modeScanBand (some b) acc M = Except.ok acc) := by
  induction M generalizing acc with
  | nil =>
    refine ⟨fun hc => ?_, fun _ => rfl⟩
    obtain ⟨it, hit, -⟩ := hc
    exact absurd hit (by simp)
  | cons it rest ih =>
    obtain ⟨bi, hbi⟩ := h1 it (by simp)
    have h1' : ∀ x ∈ rest, ∃ bx, dGet x (some "band") = some (Value.vint bx) :=
      fun x hx => h1 x (by simp [hx])
    have h2' : ∀ x ∈ rest, dGet x (some "band") = some (Value.vint b) →
        dGet x (some "label") = some (Value.vtext L) :=
      fun x hx => h2 x (by simp [hx])
    by_cases heq : bi = b
    · subst heq
      have hlab := h2 it (by simp) hbi
      constructor
      · intro _
        have htrue : pyEqVOI (Value.vint bi) (some bi) = true := by simp [pyEqVOI]
        simp only [modeScanBand, hbi, hlab, htrue, if_true]
        rcases Classical.em (∃ x ∈ rest, dGet x (some "band") = some (Value.vint bi))
          with hex | hnex
        · exact (ih _ h1' h2').1 hex
        · exact (ih _ h1' h2').2 hnex
      · intro hno
        exact absurd ⟨it, by simp, hbi⟩ hno
    · have hne : pyEqVOI (Value.vint bi) (some b) = false := by
        simp [pyEqVOI, heq]
      constructor
      · intro hc
        obtain ⟨x, hx, hxb⟩ := hc
        rcases List.mem_cons.mp hx with hx0 | hxr
        · subst hx0
          rw [hbi] at hxb
          cases hxb
          exact absurd rfl heq
        · simp only [modeScanBand, hbi, hne, if_false, Bool.false_eq_true]
          exact (ih acc h1' h2').1 ⟨x, hxr, hxb⟩
      · intro hno
        simp only [modeScanBand, hbi, hne, if_false, Bool.false_eq_true]
        refine (ih acc h1' h2').2 (fun hc => hno ?_)
        obtain ⟨x, hx, hxb⟩ := hc
        exact ⟨x, by simp [hx], hxb⟩

/-- The scan of `set_mode` over a list whose matching items all carry the
band `b`: if a match exists the scan returns `b`, otherwise the
accumulator. -/
theorem scanLabel_const (L : String) (b : Int) (M : List Item) (acc : Value)
    (h1 : ∀ it ∈ M, ∃ li, dGet it (some "label") = some (Value.vtext li))
    (h2 : ∀ it ∈ M, dGet it (some "label") = some (Value.vtext L) →
      dGet it (some "band") = some (Value.vint b)) :
    ((∃ it ∈ M, dGet it (some "label") = some (Value.vtext L)) →
      modeScanLabel L acc M = Except.ok (Value.vint b)) ∧
    ((¬ ∃ it ∈ M, dGet it (some "label") = some (Value.vtext L)) →
      modeScanLabel L acc M = Except.ok acc) := by
  induction M generalizing acc with
  | nil =>
    refine ⟨fun hc => ?_, fun _ => rfl⟩
    obtain ⟨it, hit, -⟩ := hc
    exact absurd hit (by simp)
  | cons it rest ih =>
    obtain ⟨li, hli⟩ := h1 it (by simp)
    have h1' : ∀ x ∈ rest, ∃ lx, dGet x (some "label") = some (Value.vtext lx) :=
      fun x hx => h1 x (by simp [hx])
    have h2' : ∀ x ∈ rest, dGet x (some "label") = some (Value.vtext L) →
        dGet x (some "band") = some (Value.vint b) :=
      fun x hx => h2 x (by simp [hx])
    by_cases heq : li = L
    · subst heq
      have hband := h2 it (by simp) hli
      constructor
      · intro _
        have htrue : pyEqVStr (Value.vtext li) li = true := by simp [pyEqVStr]
        simp only [modeScanLabel, hli, hband, htrue, if_true]
        rcases Classical.em (∃ x ∈ rest, dGet x (some "label") = some (Value.vtext li))
          with hex | hnex
        · exact (ih _ h1' h2').1 hex
        · exact (ih _ h1' h2').2 hnex
      · intro hno
        exact absurd ⟨it, by simp, hli⟩ hno
    · have hne : pyEqVStr (Value.vtext li) L = false := by
        simp [pyEqVStr, heq]
      constructor
      · intro hc
        obtain ⟨x, hx, hxl⟩ := hc
        rcases List.mem_cons.mp hx with hx0 | hxr
        · subst hx0
          rw [hli] at hxl
          cases hxl
          exact absurd rfl heq
        · simp only [modeScanLabel, hli, hne, if_false, Bool.false_eq_true]
          exact (ih acc h1' h2').1 ⟨x, hxr, hxl⟩
      · intro hno
        simp only [modeScanLabel, hli, hne, if_false, Bool.false_eq_true]
        refine (ih acc h1' h2').2 (fun hc => hno ?_)
        obtain ⟨x, hx, hxl⟩ := hc
        exact ⟨x, by simp [hx], hxl⟩

/-! ### Claim theorems, counterexamples and witnesses -/

def docFSOK : Doc := { status := some "FS_OK" }

def docSess : Doc := { sessionId := some "S" }

def envFail : Env := ⟨fun _ _ => Except.error (Err.other 7), fun _ => Except.ok docFSOK⟩

def stW : St := { client := { fsapi_device_url := "dev", pin := "p", webfsapi := some "w" } }

/-- C2: for every path, extra-parameter map and behaviour of the
transport/XML collaborators, the dispatcher `call` never raises to its
caller: it always returns normally, and an exception anywhere in its body
is converted into the empty result `None`. -/
theorem C2_dispatch_never_raises :
    (∀ (env : Env) (path : String) (extra : Option Params) (cs : Bool) (s : St),
      ∃ s1 v, call env path extra cs s = (s1, Except.ok v)) ∧
    (∀ (env : Env) (path : String) (extra : Option Params) (cs : Bool) (s s1 : St)
      (e : Err), callBody env path extra cs s = (s1, Except.error e) →
      call env path extra cs s = (s1, Except.ok none)) := by
  constructor
  · exact call_never_errors
  · intro env path extra cs s s1 e h
    simp [call, h]

/-- C2 witness: a transport that always raises makes the body raise, and
`call` returns `None` normally. -/
theorem C2_witness :
    call envFail "GET/x" none false stW =
      (afterReq stW (mainRequest stW.client "GET/x" none), Except.ok none) :=
  C2_dispatch_never_raises.2 envFail "GET/x" none false stW
    (afterReq stW (mainRequest stW.client "GET/x" none)) (Err.other 7) (by decide)

def envC3 : Env := ⟨fun _ _ => Except.ok ⟨200, Except.ok "resp"⟩, fun _ => Except.ok docFSOK⟩

def stC3 : St :=
  { client := { fsapi_device_url := "dev", pin := "1234", sid := some "abc",
                webfsapi := some "w" } }

/-- C3 counterexample: after a fully successful `close` on a client holding
sid "abc", the local sid is still "abc" — it is never set to `None`. -/
theorem C3_counterexample :
    (close envC3 stC3).1.client.sid = some "abc" ∧
    ¬ (close envC3 stC3).1.client.sid = none ∧
    (close envC3 stC3).2 = Except.ok () := by decide

/-- C3 (amended): `close` never raises to its caller — the DELETE_SESSION
dispatch swallows any network failure — and when the DELETE_SESSION
request succeeds on its first attempt the local sid is left unchanged (it
is not cleared to `None`). -/
theorem C3_close_behaviour :
    (∀ (env : Env) (s : St), ∃ s1, close env s = (s1, Except.ok ())) ∧
    (∀ (env : Env) (s : St) (sid0 : String) (r : Response),
      s.client.sid = some sid0 →
      pyFalsyS s.client.webfsapi = false →
      env.http s.reqCount (mainRequest s.client "DELETE_SESSION" none) = Except.ok r →
      r.status = 200 →
      (close env s).1.client.sid = some sid0) := by
  constructor
  · intro env s
    unfold close
    by_cases h : s.client.sid.isSome
    · rw [if_pos h]
      obtain ⟨s1, v, hc⟩ := call_never_errors env "DELETE_SESSION" none false s
      rw [hc]
      exact ⟨s1, rfl⟩
    · rw [if_neg h]
      exact ⟨s, rfl⟩
  · intro env s sid0 r hs hw hh hst
    have h200 := call_first_200 env "DELETE_SESSION" none false s r hw (by simp) hh hst
    unfold close
    rw [if_pos (by rw [hs]; rfl), h200]
    exact hs

/-- C3 witness for the amended no-clearing conjunct. -/
theorem C3_witness : (close envC3 stC3).1.client.sid = some "abc" :=
  C3_close_behaviour.2 envC3 stC3 "abc" ⟨200, Except.ok "resp"⟩ rfl rfl (by decide) rfl

def docC4 : Doc := { valueU8 := some "5", valueU32 := some "7" }

def envC4 : Env := ⟨fun _ _ => Except.ok ⟨200, Except.ok "t"⟩, fun _ => Except.ok docC4⟩

def stC4 : St := { client := { fsapi_device_url := "dev", pin := "p", webfsapi := some "w" } }

/-- C4: `handle_int` and `handle_long` return `None` both when the
dispatched document is absent and when the decoded numeric field equals
zero, and the field converted to a native integer otherwise. -/
theorem C4_int_long_decode (env : Env) (item : String) (s s1 : St) (d : Doc)
    (t : String) (n : Int) :
    (handle_get env item s = (s1, Except.ok none) →
      handle_int env item s = (s1, Except.ok none) ∧
      handle_long env item s = (s1, Except.ok none)) ∧
    (handle_get env item s = (s1, Except.ok (some d)) → d.valueU8 = some t →
      pyIntCore t = some n →
      handle_int env item s = (s1, Except.ok (if n = 0 then none else some n))) ∧
    (handle_get env item s = (s1, Except.ok (some d)) → d.valueU32 = some t →
      pyIntCore t = some n →
      handle_long env item s = (s1, Except.ok (if n = 0 then none else some n))) := by
  refine ⟨fun h => ⟨?_, ?_⟩, fun h h8 hn => ?_, fun h h32 hn => ?_⟩
  · simp [handle_int, h]
  · simp [handle_long, h]
  · simp only [handle_int, h]
    rw [h8]
    simp [pyInt, hn]
  · simp only [handle_long, h]
    rw [h32]
    simp [pyInt, hn]

/-- C4 witness: a document carrying u8 "5" and u32 "7" decodes to 5 and 7;
the same theorem instantiated at "0"/0 gives the `None` collapse. -/
theorem C4_witness :
    handle_int envC4 "x" stC4 = ((handle_get envC4 "x" stC4).1, Except.ok (some 5)) ∧
    handle_long envC4 "x" stC4 = ((handle_get envC4 "x" stC4).1, Except.ok (some 7)) := by
  constructor
  · have h := (C4_int_long_decode envC4 "x" stC4 (handle_get envC4 "x" stC4).1 docC4
      "5" 5).2.1 (by decide) rfl (by decide)
    simpa using h
  · have h := (C4_int_long_decode envC4 "x" stC4 (handle_get envC4 "x" stC4).1 docC4
      "7" 7).2.2 (by decide) rfl (by decide)
    simpa using h

def docC5 : Doc := { status := some "FS_OK", items := [⟨[⟨some "band", ["boom"]⟩]⟩] }

def envC5 : Env := ⟨fun _ _ => Except.ok ⟨200, Except.ok "t"⟩, fun _ => Except.ok docC5⟩

def stC5 : St := { client := { fsapi_device_url := "dev", pin := "p", webfsapi := some "w" } }

/-- C5 counterexample: an item containing a field whose `name` attribute is
literally "band" overwrites the synthetic position entry, so the decoded
item's `band` is not its zero-based position. -/
theorem C5_counterexample :
    (handle_list envC5 "x" stC5).2 = Except.ok [[(some "band", Value.vtext "boom")]] ∧
    ¬ dGet [(some "band", Value.vtext "boom")] (some "band") = some (Value.vint 0) := by
  decide

/-- C5 (amended): `handle_list` returns `[]` when the dispatched document
is absent or its status field is not `FS_OK`; when the status is `FS_OK`,
provided no field inside an item is itself named "band" and every field
has at least one child, it returns one item per `item` element in document
order with the synthetic `band` equal to the zero-based position. -/
theorem C5_list_decode (env : Env) (item : String) (s s1 : St) (d : Doc) (st : String) :
    (call env ("LIST_GET_NEXT/" ++ item ++ "/-1") (some [("maxItems", Value.vint 100)])
        false s = (s1, Except.ok none) →
      handle_list env item s = (s1, Except.ok [])) ∧
    (call env ("LIST_GET_NEXT/" ++ item ++ "/-1") (some [("maxItems", Value.vint 100)])
        false s = (s1, Except.ok (some d)) → d.status = some st → st ≠ "FS_OK" →
      handle_list env item s = (s1, Except.ok [])) ∧
    (call env ("LIST_GET_NEXT/" ++ item ++ "/-1") (some [("maxItems", Value.vint 100)])
        false s = (s1, Except.ok (some d)) → d.status = some "FS_OK" →
      (∀ it ∈ d.items, ∀ f ∈ it.fields, f.name ≠ some "band" ∧ f.children ≠ []) →
      ∃ l, handle_list env item s = (s1, Except.ok l) ∧
        l.length = d.items.length ∧
        ∀ i (hi : i < l.length),
          dGet (l.get ⟨i, hi⟩) (some "band") = some (Value.vint (Int.ofNat i))) := by
  refine ⟨fun h => ?_, fun h hst hne => ?_, fun h hst hcond => ?_⟩
  · simp [handle_list, h]
  · simp only [handle_list, h]
    rw [hst]
    simp [hne]
  · obtain ⟨l, hl, hlen, hband⟩ := decodeItems_spec d.items 0 hcond
    refine ⟨l, ?_, hlen, fun i hi => by simpa using hband i hi⟩
    simp only [handle_list, h]
    rw [hst]
    simp [hl]

def docC5w : Doc := { status := some "FS_OK",
                      items := [⟨[⟨some "label", ["A"]⟩]⟩, ⟨[⟨some "label", ["B"]⟩]⟩] }

def envC5w : Env := ⟨fun _ _ => Except.ok ⟨200, Except.ok "t"⟩, fun _ => Except.ok docC5w⟩

/-- C5 witness: two well-formed items decode to bands 0 and 1. -/
theorem C5_witness :
    ∃ l, handle_list envC5w "y" stC5 = ((handle_list envC5w "y" stC5).1, Except.ok l) ∧
      l.length = docC5w.items.length ∧
      ∀ i (hi : i < l.length),
        dGet (l.get ⟨i, hi⟩) (some "band") = some (Value.vint (Int.ofNat i)) :=
  (C5_list_decode envC5w "y" stC5 ((handle_list envC5w "y" stC5).1) docC5w "FS_OK").2.2
    (by decide) (by decide) (by decide)

/-- C6 counterexample: an item without a `label` key makes `collect_labels`
raise `KeyError` instead of skipping the item. -/
theorem C6_counterexample :
    collect_labels (some [[(some "band", Value.vint 0)]]) = Except.error Err.keyError ∧
    ¬ collect_labels (some [[(some "band", Value.vint 0)]]) =
      Except.ok ([] : List String) := by
  decide

/-- C6 (amended): over a sequence of items that all possess a `label` key,
`collect_labels` returns exactly the truthy (non-empty) label values,
converted to strings, in the original order, skipping items whose label is
empty; an empty sequence yields an empty sequence.  (An item lacking the
key raises `KeyError` — see the counterexample.) -/
theorem C6_collect_labels (items : List Item)
    (h : ∀ it ∈ items, ∃ v, dGet it (some "label") = some v) :
    collect_labels (some items) =
      Except.ok (items.filterMap (fun it =>
        match dGet it (some "label") with
        | some v => if pyTruthy v then some (pyStr v) else none
        | none => none)) := by
  have aux : ∀ (l : List Item), (∀ it ∈ l, ∃ v, dGet it (some "label") = some v) →
      collectLabelsGo l = Except.ok (l.filterMap (fun it =>
        match dGet it (some "label") with
        | some v => if pyTruthy v then some (pyStr v) else none
        | none => none)) := by
    intro l hl
    induction l with
    | nil => rfl
    | cons it rest ih =>
      obtain ⟨v, hv⟩ := hl it (by simp)
      have hr := ih (fun x hx => hl x (by simp [hx]))
      simp only [collectLabelsGo, hv, hr, List.filterMap_cons]
      by_cases ht : pyTruthy v = true
      · simp [ht]
      · rw [Bool.not_eq_true] at ht
        simp [ht]
  exact aux items h

/-- C6 witness: mixed present/empty labels collapse to the present ones in
order. -/
theorem C6_witness :
    collect_labels (some [[(some "label", Value.vtext "A")],
      [(some "label", Value.vtext "")],
      [(some "band", Value.vint 1), (some "label", Value.vtext "B")]]) =
      Except.ok ["A", "B"] := by
  rw [C6_collect_labels _ ?_]
  · decide
  · intro it hit
    simp only [List.mem_cons, List.not_mem_nil, or_false] at hit
    rcases hit with rfl | rfl | rfl
    · exact ⟨Value.vtext "A", rfl⟩
    · exact ⟨Value.vtext "", rfl⟩
    · exact ⟨Value.vtext "B", rfl⟩

def envC7 : Env := ⟨fun _ _ => Except.ok ⟨200, Except.ok "t"⟩, fun _ => Except.ok docFSOK⟩

def stC7 : St := { client := { fsapi_device_url := "dev", pin := "p7", webfsapi := some "w" } }

def stC7c : St :=
  { client := { fsapi_device_url := "dev", pin := "p7", webfsapi := some "w",
                modes := some [[(some "label", Value.vtext "X")]] } }

/-- C7 counterexample: a first fetch that yields an empty list is not
treated as cached — the second `get_modes` call issues a second fetch
(trace grows from one request to two, both at the main dispatch site). -/
theorem C7_counterexample :
    ((get_modes envC7 stC7).1).trace.length = 1 ∧
    ((get_modes envC7 ((get_modes envC7 stC7).1)).1).trace.length = 2 ∧
    countMain ((get_modes envC7 ((get_modes envC7 stC7).1)).1).trace = 2 := by
  decide

/-- C7 (amended): a capability accessor whose cache holds a truthy value
(non-empty list; non-null, non-zero scalar) returns it without issuing any
request and without changing any state; while the cached value is falsy
(`None`, `[]` or `0`), every request performs the underlying fetch. -/
theorem C7_capability_cache (env : Env) (s : St) (l : List Item) (v : Int) :
    (s.client.modes = some l → l ≠ [] → get_modes env s = (s, Except.ok l)) ∧
    (s.client.equalisers = some l → l ≠ [] → get_equalisers env s = (s, Except.ok l)) ∧
    (s.client.volume_steps = some v → v ≠ 0 →
      get_volume_steps env s = (s, Except.ok (some v))) ∧
    (pyFalsyL s.client.modes = true →
      s.trace.length < (get_modes env s).1.trace.length) ∧
    (pyFalsyL s.client.equalisers = true →
      s.trace.length < (get_equalisers env s).1.trace.length) ∧
    (pyFalsyI s.client.volume_steps = true →
      s.trace.length < (get_volume_steps env s).1.trace.length) := by
  refine ⟨get_modes_cached env s l, get_equalisers_cached env s l,
    get_volume_steps_cached env s v, fun h => ?_, fun h => ?_, fun h => ?_⟩
  · unfold get_modes
    rw [if_pos h]
    rcases hh : handle_list env (apiGet "valid_modes") s with ⟨s1, r⟩
    have hlt := handle_list_trace env (apiGet "valid_modes") s
    rw [hh] at hlt
    cases r with
    | error e => exact hlt
    | ok lv => exact hlt
  · unfold get_equalisers
    rw [if_pos h]
    rcases hh : handle_list env (apiGet "equalisers") s with ⟨s1, r⟩
    have hlt := handle_list_trace env (apiGet "equalisers") s
    rw [hh] at hlt
    cases r with
    | error e => exact hlt
    | ok lv => exact hlt
  · unfold get_volume_steps
    rw [if_pos h]
    rcases hh : handle_int env (apiGet "volume_steps") s with ⟨s1, r⟩
    have hlt := handle_int_trace env (apiGet "volume_steps") s
    rw [hh] at hlt
    cases r with
    | error e => exact hlt
    | ok lv => exact hlt

/-- C7 witness: a cached non-empty mode list is returned with no state
change; a `None` cache triggers a fetch. -/
theorem C7_witness :
    get_modes envC7 stC7c = (stC7c, Except.ok [[(some "label", Value.vtext "X")]]) ∧
    stC7.trace.length < (get_modes envC7 stC7).1.trace.length := by
  constructor
  · exact (C7_capability_cache envC7 stC7c [[(some "label", Value.vtext "X")]] 1).1
      rfl (by decide)
  · exact (C7_capability_cache envC7 stC7 [] 1).2.2.2.1 (by decide)

def docSess2 : Doc := { sessionId := some "S2" }

def docEmptyD : Doc := {}

def httpC9 : Nat → Request → Except Err Response := fun n _ =>
  if n = 0 then Except.ok ⟨500, Except.ok "e"⟩ else Except.ok ⟨200, Except.ok "cs"⟩

def parseC9 : String → Except Err Doc := fun t =>
  if t = "cs" then Except.ok docSess2 else Except.ok docEmptyD

def envC9 : Env := ⟨httpC9, parseC9⟩

def stC9 : St := { client := { fsapi_device_url := "dev", pin := "p", webfsapi := some "w" } }

/-- C9 counterexample: a read (`handle_get`, `create_session=False`) on a
client with no sid whose first request returns a non-success status leaves
the client holding a session: the recovery path creates one even for
reads. -/
theorem C9_counterexample :
    stC9.client.sid = none ∧
    (handle_get envC9 "x" stC9).1.client.sid = some "S2" ∧
    ¬ (handle_get envC9 "x" stC9).1.client.sid = none := by
  decide

def httpW9 : Nat → Request → Except Err Response := fun n _ =>
  if n = 0 then Except.ok ⟨200, Except.ok "cs"⟩ else Except.ok ⟨200, Except.ok "ok"⟩

def parseW9 : String → Except Err Doc := fun t =>
  if t = "cs" then Except.ok docSess2 else Except.ok docFSOK

def envW9 : Env := ⟨httpW9, parseW9⟩

/-- C9 (amended): every read helper dispatches with
`create_session=False` (`handle_get` literally forwards to the dispatcher
that way, and `handle_int`/`handle_long` only post-process its outcome);
when the first HTTP attempt of such a read succeeds, a client holding no
sid still holds none afterwards.  The retry path, however, creates a
session even for reads (see the counterexample).  The generic setter
`handle_set` dispatches with `create_session=True`: on a client holding no
sid, a successful CREATE_SESSION stores the fresh sid before the main
request. -/
theorem C9_reads_no_session :
    (∀ (env : Env) (item : String) (s : St),
      handle_get env item s = call env ("GET/" ++ item) none false s) ∧
    (∀ (env : Env) (item : String) (s : St),
      (handle_int env item s).1 = (handle_get env item s).1 ∧
      (handle_long env item s).1 = (handle_get env item s).1) ∧
    (∀ (env : Env) (item : String) (s : St) (r : Response),
      pyFalsyS s.client.webfsapi = false → s.client.sid = none →
      env.http s.reqCount (mainRequest s.client ("GET/" ++ item) none) = Except.ok r →
      r.status = 200 →
      (handle_get env item s).1.client.sid = none) ∧
    (∀ (env : Env) (item : String) (s : St) (r : Response),
      pyFalsyS s.client.webfsapi = false → s.client.sid = none →
      env.http s.reqCount (mainRequest s.client
        ("LIST_GET_NEXT/" ++ item ++ "/-1") (some [("maxItems", Value.vint 100)]))
        = Except.ok r →
      r.status = 200 →
      (handle_list env item s).1.client.sid = none) ∧
    (∀ (env : Env) (item : String) (value : Value) (s : St) (sd : String) (r : Response),
      pyFalsyS s.client.webfsapi = false → s.client.sid = none →
      (create_session env s).2 = Except.ok sd →
      env.http (s.reqCount + 1) (mainRequest { s.client with sid := some sd }
        ("SET/" ++ item) (some [("value", value)])) = Except.ok r →
      r.status = 200 →
      (handle_set env item value s).1.client.sid = some sd) := by
  refine ⟨fun env item s => rfl,
    fun env item s => ⟨handle_int_fst env item s, handle_long_fst env item s⟩,
    fun env item s r h1 h2 h3 h4 => ?_, fun env item s r h1 h2 h3 h4 => ?_,
    fun env item value s sd r h1 h2 h3 h4 h5 => ?_⟩
  · have hc := call_first_200 env ("GET/" ++ item) none false s r h1 (by simp) h3 h4
    show (call env ("GET/" ++ item) none false s).1.client.sid = none
    rw [hc]
    exact h2
  · have hc := call_first_200 env ("LIST_GET_NEXT/" ++ item ++ "/-1")
      (some [("maxItems", Value.vint 100)]) false s r h1 (by simp) h3 h4
    rw [handle_list_fst, hc]
    exact h2
  · have hc := call_creates_session env ("SET/" ++ item) (some [("value", value)])
      s sd r h1 h2 h3 h4 h5
    rw [handle_set_fst, hc]
    rfl

/-- C9 witness: a successful plain read keeps the sid unset; a setter on a
sid-less client stores the fresh session id. -/
theorem C9_witness :
    (handle_get envC7 "x" stC7).1.client.sid = none ∧
    (handle_set envW9 "x" (Value.vint 1) stC9).1.client.sid = some "S2" := by
  constructor
  · exact C9_reads_no_session.2.2.1 envC7 "x" stC7 ⟨200, Except.ok "t"⟩
      rfl rfl (by decide) rfl
  · exact C9_reads_no_session.2.2.2.2 envW9 "x" (Value.vint 1) stC9 "S2"
      ⟨200, Except.ok "ok"⟩ rfl rfl (by decide) (by decide) rfl

/-- C10: `get_mode` always returns a Python string: when the dispatched
mode document carries the u32 text "0", `handle_long` coerces the value to
`None`, which matches no cached item's band (every band is an integer, and
`int == None` is false, including for band 0), so `get_mode` returns the
literal string "None". -/
theorem C10_get_mode_none (env : Env) (s s1 : St) (d : Doc) (M : List Item)
    (h1 : handle_get env (apiGet "mode") s = (s1, Except.ok (some d)))
    (h2 : d.valueU32 = some "0")
    (h3 : s.client.modes = some M) (h4 : M ≠ [])
    (h5 : ∀ it ∈ M, ∃ bi, dGet it (some "band") = some (Value.vint bi)) :
    get_mode env s = (s1, Except.ok "None") := by
  have hp : pyInt "0" = Except.ok 0 := by decide
  have hlong : handle_long env (apiGet "mode") s = (s1, Except.ok none) := by
    simp only [handle_long, h1]
    rw [h2]
    dsimp only
    rw [hp]
    simp
  have hs1 : s1.client.modes = some M := by
    have hpres := (call_shape env ("GET/" ++ apiGet "mode") none false s).2.2.1
    have hfst : (call env ("GET/" ++ apiGet "mode") none false s).1 = s1 := by
      have : handle_get env (apiGet "mode") s =
          call env ("GET/" ++ apiGet "mode") none false s := rfl
      rw [← this, h1]
    rw [hfst] at hpres
    rw [hpres, h3]
  have hmods : get_modes env s1 = (s1, Except.ok M) := get_modes_cached env s1 M hs1 h4
  unfold get_mode
  rw [hlong]
  dsimp only
  rw [hmods]
  dsimp only
  rw [scanBand_none M none h5]

def docU32z : Doc := { valueU32 := some "0" }

def envC10 : Env := ⟨fun _ _ => Except.ok ⟨200, Except.ok "t"⟩, fun _ => Except.ok docU32z⟩

def stC10 : St :=
  { client := { fsapi_device_url := "dev", pin := "p", webfsapi := some "w",
                modes := some [[(some "band", Value.vint 0),
                                (some "label", Value.vtext "DAB")]] } }

/-- C10 witness: a device reporting mode index 0 against a cached mode list
containing the band-0 item yields the string "None". -/
theorem C10_witness :
    get_mode envC10 stC10 =
      ((handle_get envC10 (apiGet "mode") stC10).1, Except.ok "None") := by
  refine C10_get_mode_none envC10 stC10 ((handle_get envC10 (apiGet "mode") stC10).1)
    docU32z [[(some "band", Value.vint 0), (some "label", Value.vtext "DAB")]]
    (by decide) rfl rfl (by decide) ?_
  intro it hit
  simp only [List.mem_cons, List.not_mem_nil, or_false] at hit
  rcases hit with rfl
  exact ⟨0, rfl⟩

def docU32two : Doc := { valueU32 := some "2" }

def itemFM : Item := [(some "band", Value.vint 1), (some "label", Value.vtext "FM")]

def itemDAB2 : Item := [(some "band", Value.vint 2), (some "label", Value.vtext "DAB")]

def itemDAB0 : Item := [(some "band", Value.vint 0), (some "label", Value.vtext "DAB")]

def httpC8 : Nat → Request → Except Err Response := fun n _ =>
  if n = 0 then Except.ok ⟨200, Except.ok "cs"⟩ else Except.ok ⟨200, Except.ok "setok"⟩

def parseC8 : String → Except Err Doc := fun t =>
  if t = "cs" then Except.ok docSess else Except.ok docFSOK

def envC8set : Env := ⟨httpC8, parseC8⟩

def envC8get0 : Env := ⟨fun _ _ => Except.ok ⟨200, Except.ok "g"⟩, fun _ => Except.ok docU32z⟩

def envC8get2 : Env := ⟨fun _ _ => Except.ok ⟨200, Except.ok "g"⟩, fun _ => Except.ok docU32two⟩

def stC8z : St :=
  { client := { fsapi_device_url := "dev", pin := "p", webfsapi := some "w",
                modes := some [itemDAB0] } }

def stC8 : St :=
  { client := { fsapi_device_url := "dev", pin := "p", webfsapi := some "w",
                modes := some [itemFM, itemDAB2] } }

/-- C8 counterexample: with the cached mode list carrying "DAB" at band 0,
`set_mode "DAB"` succeeds and a device honoring the write reports index 0;
`handle_long` coerces 0 to `None`, no band matches, and `get_mode` returns
"None" instead of "DAB". -/
theorem C8_counterexample :
    (set_mode envC8set "DAB" stC8z).2 = Except.ok (some true) ∧
    (get_mode envC8get0 ((set_mode envC8set "DAB" stC8z).1)).2 = Except.ok "None" ∧
    ¬ (get_mode envC8get0 ((set_mode envC8set "DAB" stC8z).1)).2 =
      Except.ok "DAB" := by
  decide

/-- C8 (amended): for a cached mode list whose items map `band` to integer
bands and `label` to string labels, with bands determining labels and
labels determining bands (no ambiguous duplicates), and for a label whose
band is non-zero: `set_mode` resolves that label to its band, and a
subsequent `get_mode` on a device honoring the write (the read of the mode
field reports that band) returns the same label. -/
theorem C8_mode_round_trip (env1 env2 : Env) (s s1 s2 : St) (M : List Item)
    (b : Int) (L : String) (w : Option Bool)
    (hM : s.client.modes = some M) (hne : M ≠ [])
    (hitems : ∀ it ∈ M, ∃ bi li, dGet it (some "band") = some (Value.vint bi) ∧
      dGet it (some "label") = some (Value.vtext li))
    (hb2l : ∀ it1 ∈ M, ∀ it2 ∈ M,
      dGet it1 (some "band") = dGet it2 (some "band") →
      dGet it1 (some "label") = dGet it2 (some "label"))
    (hl2b : ∀ it1 ∈ M, ∀ it2 ∈ M,
      dGet it1 (some "label") = dGet it2 (some "label") →
      dGet it1 (some "band") = dGet it2 (some "band"))
    (hmem : ∃ it ∈ M, dGet it (some "band") = some (Value.vint b) ∧
      dGet it (some "label") = some (Value.vtext L))
    (hb0 : b ≠ 0)
    (hset : set_mode env1 L s = (s1, Except.ok w))
    (hread : handle_long env2 (apiGet "mode") s1 = (s2, Except.ok (some b))) :
    modeScanLabel L (Value.vint (-1)) M = Except.ok (Value.vint b) ∧
    get_mode env2 s1 = (s2, Except.ok L) := by
  obtain ⟨it0, hit0, hit0b, hit0l⟩ := hmem
  have h1L : ∀ it ∈ M, ∃ li, dGet it (some "label") = some (Value.vtext li) := by
    intro it hmemit
    obtain ⟨bi, li, -, hl⟩ := hitems it hmemit
    exact ⟨li, hl⟩
  have hptL : ∀ it ∈ M, dGet it (some "label") = some (Value.vtext L) →
      dGet it (some "band") = some (Value.vint b) := by
    intro it hmemit hlab
    have := hl2b it hmemit it0 hit0 (by rw [hlab, hit0l])
    rw [hit0b] at this
    exact this
  have hscanL : modeScanLabel L (Value.vint (-1)) M = Except.ok (Value.vint b) :=
    (scanLabel_const L b M (Value.vint (-1)) h1L hptL).1 ⟨it0, hit0, hit0l⟩
  refine ⟨hscanL, ?_⟩
  have hgm : get_modes env1 s = (s, Except.ok M) := get_modes_cached env1 s M hM hne
  have hsetEq : handle_set env1 (apiGet "mode") (Value.vint b) s = (s1, Except.ok w) := by
    unfold set_mode at hset
    rw [hgm] at hset
    dsimp only at hset
    rw [hscanL] at hset
    exact hset
  have hs1 : s1.client.modes = some M := by
    have hpres := (call_shape env1 ("SET/" ++ apiGet "mode")
      (some [("value", Value.vint b)]) true s).2.2.1
    have hfst : (call env1 ("SET/" ++ apiGet "mode")
        (some [("value", Value.vint b)]) true s).1 = s1 := by
      rw [← handle_set_fst, hsetEq]
    rw [hfst] at hpres
    rw [hpres, hM]
  have hs2 : s2.client.modes = some M := by
    have hpres := (call_shape env2 ("GET/" ++ apiGet "mode") none false s1).2.2.1
    have hfst : (call env2 ("GET/" ++ apiGet "mode") none false s1).1 = s2 := by
      have h21 : (handle_long env2 (apiGet "mode") s1).1 = s2 := by rw [hread]
      rw [handle_long_fst] at h21
      exact h21
    rw [hfst] at hpres
    rw [hpres, hs1]
  have h1B : ∀ it ∈ M, ∃ bi, dGet it (some "band") = some (Value.vint bi) := by
    intro it hmemit
    obtain ⟨bi, li, hbv, -⟩ := hitems it hmemit
    exact ⟨bi, hbv⟩
  have hptB : ∀ it ∈ M, dGet it (some "band") = some (Value.vint b) →
      dGet it (some "label") = some (Value.vtext L) := by
    intro it hmemit hband
    have := hb2l it hmemit it0 hit0 (by rw [hband, hit0b])
    rw [hit0l] at this
    exact this
  have hscanB : modeScanBand (some b) none M = Except.ok (some (Value.vtext L)) :=
    (scanBand_const b L M none h1B hptB).1 ⟨it0, hit0, hit0b⟩
  have hmods2 : get_modes env2 s2 = (s2, Except.ok M) := get_modes_cached env2 s2 M hs2 hne
  unfold get_mode
  rw [hread]
  dsimp only
  rw [hmods2]
  dsimp only
  rw [hscanB]
  rfl

/-- C8 witness: modes FM=1, DAB=2; setting "DAB" dispatches band 2 and a
device reporting 2 reads back as "DAB". -/
theorem C8_witness :
    modeScanLabel "DAB" (Value.vint (-1)) [itemFM, itemDAB2] =
      Except.ok (Value.vint 2) ∧
    get_mode envC8get2 ((set_mode envC8set "DAB" stC8).1) =
      ((handle_long envC8get2 (apiGet "mode") ((set_mode envC8set "DAB" stC8).1)).1,
       Except.ok "DAB") := by
  refine C8_mode_round_trip envC8set envC8get2 stC8
    ((set_mode envC8set "DAB" stC8).1)
    ((handle_long envC8get2 (apiGet "mode") ((set_mode envC8set "DAB" stC8).1)).1)
    [itemFM, itemDAB2] 2 "DAB" (some true) rfl (by decide) ?_ ?_ ?_ ?_ (by decide)
    (by decide) (by decide)
  · intro it hit
    fin_cases hit
    · exact ⟨1, "FM", by decide, by decide⟩
    · exact ⟨2, "DAB", by decide, by decide⟩
  · intro it1 h1 it2 h2
    fin_cases h1 <;> fin_cases h2 <;> decide
  · intro it1 h1 it2 h2
    fin_cases h1 <;> fin_cases h2 <;> decide
  · exact ⟨itemDAB2, by decide, by decide, by decide⟩

/-- C1: a dispatch never issues more than two main-site requests, whatever
the collaborators do; and when the endpoint is resolved, no session needs
creating, the first main GET returns a non-success status and the recovery
CREATE_SESSION yields a fresh sid, the dispatch issues exactly one retry —
its parameters rebuilt as `{pin, fresh sid}` updated with the extra
parameters — and no third main request, whatever the retry returns. -/
theorem C1_retry_once (env : Env) (path : String) (extra : Option Params) (cs : Bool)
    (s : St) (r : Response) (sd : String) :
    countMain (call env path extra cs s).1.trace ≤ countMain s.trace + 2 ∧
    (pyFalsyS s.client.webfsapi = false →
     (cs && pyFalsyS s.client.sid) = false →
     env.http s.reqCount (mainRequest s.client path extra) = Except.ok r →
     r.status ≠ 200 →
     (create_session env (afterReq s (mainRequest s.client path extra))).2 =
       Except.ok sd →
     filterMain (call env path extra cs s).1.trace =
       filterMain s.trace ++ [mainRequest s.client path extra,
         retryRequest s.client path sd extra] ∧
     retryRequest s.client path sd extra =
       ⟨.main, reqUrl s.client path, retryParams s.client sd extra⟩ ∧
     (call env path extra cs s).1.client.sid = some sd) := by
  refine ⟨(call_shape env path extra cs s).1, fun h1 h2 h3 h4 h5 => ?_⟩
  obtain ⟨x, hc⟩ := call_first_not200 env path extra cs s r sd h1 h2 h3 h4 h5
  rw [hc]
  refine ⟨?_, rfl, rfl⟩
  dsimp only [afterReq]
  simp only [filterMain, List.filter_append]
  have hm : isMain (mainRequest s.client path extra) = true := rfl
  have hse : isMain (sessionRequest s.client) = false := rfl
  have hre : isMain (retryRequest s.client path sd extra) = true := rfl
  simp [List.filter_cons, hm, hse, hre]

def httpC1 : Nat → Request → Except Err Response := fun n _ =>
  if n = 0 then Except.ok ⟨503, Except.ok "busy"⟩
  else if n = 1 then Except.ok ⟨200, Except.ok "cs"⟩
  else Except.ok ⟨500, Except.ok "again"⟩

def parseC1 : String → Except Err Doc := fun t =>
  if t = "cs" then Except.ok docSess2 else Except.ok docEmptyD

def envC1 : Env := ⟨httpC1, parseC1⟩

def stC1 : St :=
  { client := { fsapi_device_url := "dev", pin := "p1", webfsapi := some "w" } }

/-- C1 witness: first main GET answers 503, session recovery succeeds, the
retry itself fails with 500 — still exactly two main requests, the second
carrying `{pin, fresh sid}`. -/
theorem C1_witness :
    filterMain (call envC1 "GET/x" none false stC1).1.trace =
      filterMain stC1.trace ++ [mainRequest stC1.client "GET/x" none,
        retryRequest stC1.client "GET/x" "S2" none] ∧
    retryRequest stC1.client "GET/x" "S2" none =
      ⟨.main, reqUrl stC1.client "GET/x", retryParams stC1.client "S2" none⟩ ∧
    (call envC1 "GET/x" none false stC1).1.client.sid = some "S2" :=
  (C1_retry_once envC1 "GET/x" none false stC1 ⟨503, Except.ok "busy"⟩ "S2").2
    rfl rfl (by decide) (by decide) (by decide)
